import Mathlib

/-!
Verification of the session lifecycle manager of the persistent browser
server (the `browser-server` document embedded in `test-session-demo.js`)
and of the ephemeral session wrappers of the MCP adapter (`index.js`).

The JavaScript is embedded shallowly: the global
`sessions : Map<string, SessionData>` becomes an insertion-ordered
association list, `Date.now()` timestamps become naturals supplied per
request, and every awaited browser/page primitive (launch, newPage,
setViewport, goto, click, evaluate, content, screenshot, title, close)
becomes an explicit `Except String` outcome supplied by an environment
record, so that both the success path and the failure path of each
handler is a total Lean function on the registry state.
-/

namespace BrowserServer

/-- `CONFIG.MAX_SESSIONS` in `browser-server`. -/
def CONFIG_MAX_SESSIONS : Nat := 5

/-- `CONFIG.SESSION_TIMEOUT_MS` in `browser-server` (5 minutes). -/
def CONFIG_SESSION_TIMEOUT_MS : Nat := 5 * 60 * 1000

/-- `CONFIG.MAX_PAGES_PER_SESSION` in `browser-server`. -/
def CONFIG_MAX_PAGES_PER_SESSION : Nat := 10

/-- `CONFIG.CLEANUP_INTERVAL_MS` in `browser-server` (1 minute). -/
def CONFIG_CLEANUP_INTERVAL_MS : Nat := 60 * 1000

/-- The `SessionData` record of `browser-server`: id, open pages (handles),
`lastAccessed` timestamp, advisory `currentUrl`, and caller metadata.
The puppeteer `browser` handle is implicit: it lives and dies with the
record (its close outcome is modelled in `CloseEnv`). -/
structure SessionData where
  id : String
  pages : List Nat
  lastAccessed : Nat
  currentUrl : Option String
  metadata : List (String × String)
deriving Repr, DecidableEq

/-- The global `sessions` map, as an insertion-ordered association list
(JavaScript `Map` iteration order is insertion order). -/
abbrev Registry := List SessionData

/-- `sessions.get(sid)`. -/
def mapGet (r : Registry) (sid : String) : Option SessionData :=
  r.find? (fun s => s.id = sid)

/-- `sessions.set(s.id, s)`: updating an existing key keeps its position
(keys are unique, so replacing the first hit is replacing the hit), a
new key is appended at the end, matching `Map` insertion order. -/
def mapSet (r : Registry) (s : SessionData) : Registry :=
  match r with
  | [] => [s]
  | t :: ts => if t.id = s.id then s :: ts else t :: mapSet ts s

/-- `sessions.delete(sid)`. -/
def mapDelete (r : Registry) (sid : String) : Registry :=
  r.filter (fun s => s.id ≠ sid)

/-- The error taxonomy of the server, by throw site: the capacity error
thrown by `createSession`, the not-found error thrown by `getSession`,
and failures of underlying browser/page primitives (surfaced by the
routes as a 500 with the underlying message). -/
inductive SrvErr where
  | capacityExceeded (msg : String)
  | notFound (msg : String)
  | operationFailed (msg : String)
deriving Repr, DecidableEq

/-- Which teardown primitives fail: `page.close()` per page handle and
`browser.close()` per session id.  `destroySession` catches both kinds. -/
structure CloseEnv where
  pageCloseFails : Nat → Bool
  browserCloseFails : String → Bool

/-- Observable trace of one `destroySession` call: which page handles had
`page.close()` attempted, whether `browser.close()` was attempted, and
the error lines logged by the catch blocks. -/
structure Teardown where
  pagesAttempted : List Nat
  browserAttempted : Bool
  logged : List String
deriving Repr, DecidableEq

/-- `destroySession(sessionId)`: absent id returns `false` untouched;
otherwise every page close is attempted (each in its own try/catch, so
one failure never skips the rest), then the browser close is attempted
(its failure is caught by the outer try/catch), then the map entry is
deleted unconditionally and `true` is returned. -/
def destroySession (env : CloseEnv) (sid : String) (r : Registry) :
    Bool × Registry × Teardown :=
  match mapGet r sid with
  | none => (false, r, ⟨[], false, []⟩)
  | some s =>
      let pageLogs := (s.pages.filter (fun p => env.pageCloseFails p)).map
        (fun p => "[SESSION] Error closing page " ++ toString p)
      let browserLogs :=
        if env.browserCloseFails s.id then
          ["[SESSION] Error destroying session " ++ sid]
        else []
      (true, mapDelete r sid, ⟨s.pages, true, pageLogs ++ browserLogs⟩)

/-- The collection phase of `cleanupExpiredSessions`: ids of all records
whose idle time `now - lastAccessed` strictly exceeds the timeout. -/
def expiredIds (now : Nat) (r : Registry) : List String :=
  (r.filter (fun s => now - s.lastAccessed > CONFIG_SESSION_TIMEOUT_MS)).map
    (fun s => s.id)

/-- The destruction phase of `cleanupExpiredSessions`: destroy each
collected id in order. -/
def destroyAll (env : CloseEnv) (ids : List String) (r : Registry) : Registry :=
  ids.foldl (fun acc sid => (destroySession env sid acc).2.1) r

/-- `cleanupExpiredSessions()`: collect the expired ids first, then
destroy them, and return the new registry with the number of collected
ids (`expiredSessions.length`). -/
def cleanupExpiredSessions (env : CloseEnv) (now : Nat) (r : Registry) :
    Registry × Nat :=
  let ids := expiredIds now r
  (destroyAll env ids r, ids.length)

/-- The message of the capacity error thrown by `createSession`. -/
def capacityMsg : String :=
  "Maximum session limit reached (" ++ toString CONFIG_MAX_SESSIONS ++ ")"

/-- `createSession(metadata)`: at capacity it first runs the sweep and
re-checks, failing with `Maximum session limit reached (MAX)` if still
full; then `puppeteer.launch` runs (modelled by `launch`), and on success
a fresh record `ses_<uuid>` with empty `pages` and `lastAccessed = now`
is inserted.  The registry is returned even on failure, because the
sweep mutates the global map before the throw. -/
def createSession (env : CloseEnv) (launch : Except String Unit) (now : Nat)
    (newId : String) (meta : List (String × String)) (r : Registry) :
    Registry × Except SrvErr SessionData :=
  let r1 := if r.length ≥ CONFIG_MAX_SESSIONS then
      (cleanupExpiredSessions env now r).1
    else r
  if r1.length ≥ CONFIG_MAX_SESSIONS then
    (r1, .error (.capacityExceeded capacityMsg))
  else
    match launch with
    | .error e => (r1, .error (.operationFailed e))
    | .ok _ =>
        let s : SessionData :=
          { id := "ses_" ++ newId, pages := [], lastAccessed := now,
            currentUrl := none, metadata := meta }
        (mapSet r1 s, .ok s)

/-- `getSession(sessionId)`: throws `Session not found: <id>` if absent;
otherwise sets `lastAccessed = Date.now()` on the record and returns it. -/
def getSession (now : Nat) (sid : String) (r : Registry) :
    Registry × Except SrvErr SessionData :=
  match mapGet r sid with
  | none => (r, .error (.notFound ("Session not found: " ++ sid)))
  | some s =>
      let s2 := { s with lastAccessed := now }
      (mapSet r s2, .ok s2)

/-- `getCurrentPage(session)`: if no pages exist, `browser.newPage()`
(outcome `newPage`) creates one and it is pushed; otherwise the most
recently used page (the last element) is returned. -/
def getCurrentPage (newPage : Except String Nat) (s : SessionData) :
    Except String (SessionData × Nat) :=
  if s.pages.isEmpty then
    match newPage with
    | .error e => .error e
    | .ok p => .ok ({ s with pages := s.pages ++ [p] }, p)
  else
    .ok (s, s.pages.getLastD 0)

/-- One JSON scalar of the server's responses. -/
inductive JVal where
  | jstr (s : String)
  | jnat (n : Nat)
deriving Repr, DecidableEq

/-- `GET /health`: a plain `res.json` with no try/catch — it cannot
fail.  The JSON object is kept as a key/value list so the field names
are part of the model. -/
def healthHandler (r : Registry) (uptime : Nat) : List (String × JVal) :=
  [("status", .jstr "ok"),
   ("sessions", .jnat r.length),
   ("maxSessions", .jnat CONFIG_MAX_SESSIONS),
   ("uptime", .jnat uptime)]

/-- The per-session info object built by `GET /session/:id/info` and by
`GET /sessions`. -/
structure InfoResponse where
  id : String
  pagesCount : Nat
  currentUrl : Option String
  lastAccessed : Nat
  idleTime : Nat
  metadata : List (String × String)
deriving Repr, DecidableEq

/-- `GET /session/:id/info`: `getSession` (which touches
`lastAccessed`), then the info object with
`idleTime = Date.now() - session.lastAccessed`. -/
def infoHandler (now : Nat) (sid : String) (r : Registry) :
    Registry × Except SrvErr InfoResponse :=
  match getSession now sid r with
  | (r1, .error e) => (r1, .error e)
  | (r1, .ok s) =>
      (r1, .ok { id := s.id, pagesCount := s.pages.length,
                 currentUrl := s.currentUrl, lastAccessed := s.lastAccessed,
                 idleTime := now - s.lastAccessed, metadata := s.metadata })

/-- `GET /sessions`: a snapshot of every record; it does not go through
`getSession`, so `lastAccessed` is not touched. -/
def listHandler (now : Nat) (r : Registry) : List InfoResponse :=
  r.map (fun s =>
    { id := s.id, pagesCount := s.pages.length, currentUrl := s.currentUrl,
      lastAccessed := s.lastAccessed, idleTime := now - s.lastAccessed,
      metadata := s.metadata })

/-- Outcomes of the page primitives awaited by `POST /session/:id/navigate`:
`browser.newPage` (when the session has no page yet), `page.setViewport`,
`page.goto`, `page.title`; `page.url()` is synchronous and cannot fail. -/
structure NavEnv where
  newPage : Except String Nat
  viewport : Except String Unit
  goto : Except String Unit
  title : Except String String
  pageUrl : String

/-- Success payload of `POST /session/:id/navigate`. -/
structure NavResponse where
  title : String
  url : String
deriving Repr, DecidableEq

/-- `POST /session/:id/navigate`: `getSession`, `getCurrentPage`,
`setViewport`, `goto`; only after `goto` succeeds is
`session.currentUrl = url` assigned, then `title`/`url()` are read.
Every thrown primitive error becomes the 500 `{success:false, error}`
response, carrying the underlying message. -/
def navigateHandler (env : NavEnv) (now : Nat) (sid url : String)
    (r : Registry) : Registry × Except SrvErr NavResponse :=
  match getSession now sid r with
  | (r1, .error e) => (r1, .error e)
  | (r1, .ok s) =>
      match getCurrentPage env.newPage s with
      | .error e => (r1, .error (.operationFailed e))
      | .ok (s1, _p) =>
          let r2 := mapSet r1 s1
          match env.viewport with
          | .error e => (r2, .error (.operationFailed e))
          | .ok _ =>
              match env.goto with
              | .error e => (r2, .error (.operationFailed e))
              | .ok _ =>
                  let s2 := { s1 with currentUrl := some url }
                  let r3 := mapSet r2 s2
                  match env.title with
                  | .error e => (r3, .error (.operationFailed e))
                  | .ok t => (r3, .ok { title := t, url := env.pageUrl })

/-- Outcomes of the primitives awaited by `POST /session/:id/click`. -/
structure ClickEnv where
  newPage : Except String Nat
  click : Except String Unit
  title : Except String String
  pageUrl : String

/-- `POST /session/:id/click`: `getSession`, `getCurrentPage`, the click
(with or without the navigation wait), then `newUrl = page.url()`,
`title`, and `session.currentUrl = newUrl`. -/
def clickHandler (env : ClickEnv) (now : Nat) (sid : String) (r : Registry) :
    Registry × Except SrvErr NavResponse :=
  match getSession now sid r with
  | (r1, .error e) => (r1, .error e)
  | (r1, .ok s) =>
      match getCurrentPage env.newPage s with
      | .error e => (r1, .error (.operationFailed e))
      | .ok (s1, _p) =>
          let r2 := mapSet r1 s1
          match env.click with
          | .error e => (r2, .error (.operationFailed e))
          | .ok _ =>
              match env.title with
              | .error e => (r2, .error (.operationFailed e))
              | .ok t =>
                  let s2 := { s1 with currentUrl := some env.pageUrl }
                  let r3 := mapSet r2 s2
                  (r3, .ok { title := t, url := env.pageUrl })

/-- Outcomes of the primitives awaited by `POST /session/:id/evaluate`. -/
structure EvalEnv where
  newPage : Except String Nat
  evalResult : Except String String

/-- `POST /session/:id/evaluate`: `getSession`, `getCurrentPage`, then
`page.evaluate` of the caller's script. -/
def evaluateHandler (env : EvalEnv) (now : Nat) (sid : String)
    (r : Registry) : Registry × Except SrvErr String :=
  match getSession now sid r with
  | (r1, .error e) => (r1, .error e)
  | (r1, .ok s) =>
      match getCurrentPage env.newPage s with
      | .error e => (r1, .error (.operationFailed e))
      | .ok (s1, _p) =>
          let r2 := mapSet r1 s1
          match env.evalResult with
          | .error e => (r2, .error (.operationFailed e))
          | .ok v => (r2, .ok v)

/-- Outcomes of the primitives awaited by `GET /session/:id/content`. -/
structure ContentEnv where
  newPage : Except String Nat
  content : Except String String
  title : Except String String
  pageUrl : String

/-- Success payload of `GET /session/:id/content`. -/
structure ContentResponse where
  title : String
  url : String
  content : String
  contentLength : Nat
deriving Repr, DecidableEq

/-- `GET /session/:id/content`: `getSession`, `getCurrentPage`,
`page.content()` (truncated to 10000 chars in the response, with the
full length reported), `page.title()`, `page.url()`. -/
def contentHandler (env : ContentEnv) (now : Nat) (sid : String)
    (r : Registry) : Registry × Except SrvErr ContentResponse :=
  match getSession now sid r with
  | (r1, .error e) => (r1, .error e)
  | (r1, .ok s) =>
      match getCurrentPage env.newPage s with
      | .error e => (r1, .error (.operationFailed e))
      | .ok (s1, _p) =>
          let r2 := mapSet r1 s1
          match env.content with
          | .error e => (r2, .error (.operationFailed e))
          | .ok c =>
              match env.title with
              | .error e => (r2, .error (.operationFailed e))
              | .ok t =>
                  (r2, .ok { title := t, url := env.pageUrl,
                             content := c.take 10000,
                             contentLength := c.length })

/-- Outcomes of the primitives awaited by `POST /session/:id/screenshot`:
viewport, the optional selector wait, `page.screenshot`, the sharp
resize/re-encode pipeline (producing the base64 string), `page.title`. -/
structure ShotEnv where
  newPage : Except String Nat
  viewport : Except String Unit
  waitSelector : Except String Unit
  shot : Except String Unit
  resize : Except String String
  title : Except String String
  pageUrl : String

/-- Success payload of `POST /session/:id/screenshot`. -/
structure ShotResponse where
  screenshot : String
  url : String
  title : String
deriving Repr, DecidableEq

/-- `POST /session/:id/screenshot`: `getSession`, `getCurrentPage`,
`setViewport`, the selector wait when requested, the optional delay,
`page.screenshot`, the sharp resize to fit 800x600 re-encoded as JPEG
(base64), then `url()`/`title`.  `currentUrl` is never written. -/
def screenshotHandler (env : ShotEnv) (now : Nat) (sid : String)
    (waitForSelector : Option String) (r : Registry) :
    Registry × Except SrvErr ShotResponse :=
  match getSession now sid r with
  | (r1, .error e) => (r1, .error e)
  | (r1, .ok s) =>
      match getCurrentPage env.newPage s with
      | .error e => (r1, .error (.operationFailed e))
      | .ok (s1, _p) =>
          let r2 := mapSet r1 s1
          match env.viewport with
          | .error e => (r2, .error (.operationFailed e))
          | .ok _ =>
              match (if waitForSelector.isSome then env.waitSelector else .ok ()) with
              | .error e => (r2, .error (.operationFailed e))
              | .ok _ =>
                  match env.shot with
                  | .error e => (r2, .error (.operationFailed e))
                  | .ok _ =>
                      match env.resize with
                      | .error e => (r2, .error (.operationFailed e))
                      | .ok b64 =>
                          match env.title with
                          | .error e => (r2, .error (.operationFailed e))
                          | .ok t =>
                              (r2, .ok { screenshot := b64, url := env.pageUrl,
                                         title := t })

/-- The JSON body of `POST /session/create` as parsed by the MCP
adapter: `{success, sessionId}` on 200, `{success:false}` (no
`sessionId`) on 500. -/
structure CreateResp where
  success : Bool
  sessionId : Option String
deriving Repr, DecidableEq

/-- The `POST /session/create` route around `createSession`. -/
def routeCreate (cenv : CloseEnv) (launch : Except String Unit) (now : Nat)
    (newId : String) (meta : List (String × String)) (r : Registry) :
    Registry × CreateResp :=
  match createSession cenv launch now newId meta r with
  | (r1, .ok s) => (r1, { success := true, sessionId := some s.id })
  | (r1, .error _) => (r1, { success := false, sessionId := none })

/-- The `POST /session/:id/navigate` route, reduced to the `success`
flag the MCP adapter reads from the parsed JSON. -/
def routeNavigate (env : NavEnv) (now : Nat) (sid url : String)
    (r : Registry) : Registry × Bool :=
  match navigateHandler env now sid url r with
  | (r1, .ok _) => (r1, true)
  | (r1, .error _) => (r1, false)

/-- The `GET /session/:id/content` route, reduced to the `success` flag. -/
def routeContent (env : ContentEnv) (now : Nat) (sid : String)
    (r : Registry) : Registry × Bool :=
  match contentHandler env now sid r with
  | (r1, .ok _) => (r1, true)
  | (r1, .error _) => (r1, false)

/-- The `POST /session/:id/screenshot` route, reduced to the `success`
flag. -/
def routeScreenshot (env : ShotEnv) (now : Nat) (sid : String)
    (waitForSelector : Option String) (r : Registry) : Registry × Bool :=
  match screenshotHandler env now sid waitForSelector r with
  | (r1, .ok _) => (r1, true)
  | (r1, .error _) => (r1, false)

/-- The `DELETE /session/:id` route around `destroySession`. -/
def routeDelete (cenv : CloseEnv) (sid : String) (r : Registry) :
    Registry × Bool :=
  match destroySession cenv sid r with
  | (destroyed, r1, _) => (r1, destroyed)

end BrowserServer

namespace McpAdapter


open BrowserServer

/-- Which of the adapter's `browserServerRequest` curl invocations throw
(transport failure: curl exits non-zero or the output is not JSON).  A
throwing call is modelled as not reaching the server; the tool handler's
outer catch then returns an `isError` result. -/
structure Transport where
  createThrows : Bool
  navThrows : Bool
  opThrows : Bool
  delThrows : Bool
deriving Repr, DecidableEq

/-- The `puppeteer_navigate` tool of `index.js`: with no `sessionId` it
creates a session with `metadata.temporary = true` and uses
`createResp.sessionId` (the string `"undefined"` when the create
response carried none, as JavaScript interpolates `undefined` into the
URL); it then POSTs the navigate, GETs the content, and — only on this
straight-line path — DELETEs the temporary session.  A throwing request
propagates to the tool-level catch (result `true` = the handler threw),
skipping every later request including the DELETE. -/
def puppeteerNavigateTool (t : Transport) (cenv : CloseEnv)
    (launch : Except String Unit) (nav : NavEnv) (cont : ContentEnv)
    (now : Nat) (newId : String) (sessionId : Option String) (url : String)
    (r : Registry) : Registry × Bool :=
  let tempSession := sessionId.isNone
  if tempSession && t.createThrows then (r, true)
  else
    let step1 : Registry × Option String :=
      match sessionId with
      | some sid => (r, some sid)
      | none =>
          let c := routeCreate cenv launch now newId [("temporary", "true")] r
          (c.1, c.2.sessionId)
    let r1 := step1.1
    let activeSessionId := step1.2.getD "undefined"
    if t.navThrows then (r1, true)
    else
      let n := routeNavigate nav now activeSessionId url r1
      let r2 := n.1
      if t.opThrows then (r2, true)
      else
        let c2 := routeContent cont now activeSessionId r2
        let r3 := c2.1
        if tempSession then
          if t.delThrows then (r3, true)
          else
            let d := routeDelete cenv activeSessionId r3
            (d.1, false)
        else (r3, false)

/-- The `puppeteer_screenshot` tool of `index.js`: with no `sessionId`
it requires a `url` (throwing before anything is created otherwise),
creates a `metadata.temporary = true` session, navigates to the url,
takes the screenshot, and DELETEs the temporary session only on the
straight-line path; with a `sessionId` it only takes the screenshot.
Result `true` = the handler threw (caught by the tool-level catch). -/
def puppeteerScreenshotTool (t : Transport) (cenv : CloseEnv)
    (launch : Except String Unit) (nav : NavEnv) (shot : ShotEnv)
    (now : Nat) (newId : String) (sessionId : Option String)
    (url : Option String) (waitForSelector : Option String)
    (r : Registry) : Registry × Bool :=
  match sessionId with
  | some sid =>
      if t.opThrows then (r, true)
      else
        let srs := routeScreenshot shot now sid waitForSelector r
        (srs.1, false)
  | none =>
      match url with
      | none => (r, true)
      | some u =>
          if t.createThrows then (r, true)
          else
            let c := routeCreate cenv launch now newId [("temporary", "true")] r
            let r1 := c.1
            let activeSessionId := c.2.sessionId.getD "undefined"
            if t.navThrows then (r1, true)
            else
              let n := routeNavigate nav now activeSessionId u r1
              let r2 := n.1
              if t.opThrows then (r2, true)
              else
                let srs :=
                  routeScreenshot shot now activeSessionId waitForSelector r2
                let r3 := srs.1
                if t.delThrows then (r3, true)
                else
                  let d := routeDelete cenv activeSessionId r3
                  (d.1, false)

/-- A transport in which every curl invocation succeeds. -/
def noThrowTransport : Transport := ⟨false, false, false, false⟩

/-- A transport in which the navigate request throws (e.g. the browser
server restarted between the create and the navigate). -/
def navThrowsTransport : Transport := ⟨false, true, false, false⟩

end McpAdapter

namespace BrowserServer

/-- One inbound control-surface operation of the browser server, with the
primitive outcomes its handler will see.  `list` and `health` are
read-only snapshots and do not appear: they leave the registry untouched
by definition. -/
inductive ServerOp where
  | createOp (cenv : CloseEnv) (launch : Except String Unit) (now : Nat)
      (newId : String) (meta : List (String × String))
  | infoOp (now : Nat) (sid : String)
  | navigateOp (env : NavEnv) (now : Nat) (sid url : String)
  | clickOp (env : ClickEnv) (now : Nat) (sid : String)
  | evaluateOp (env : EvalEnv) (now : Nat) (sid : String)
  | contentOp (env : ContentEnv) (now : Nat) (sid : String)
  | screenshotOp (env : ShotEnv) (now : Nat) (sid : String)
      (sel : Option String)
  | deleteOp (cenv : CloseEnv) (sid : String)
  | sweepOp (cenv : CloseEnv) (now : Nat)

/-- The registry after one control-surface operation. -/
def applyServerOp (op : ServerOp) (r : Registry) : Registry :=
  match op with
  | .createOp cenv launch now newId meta =>
      (createSession cenv launch now newId meta r).1
  | .infoOp now sid => (infoHandler now sid r).1
  | .navigateOp env now sid url => (navigateHandler env now sid url r).1
  | .clickOp env now sid => (clickHandler env now sid r).1
  | .evaluateOp env now sid => (evaluateHandler env now sid r).1
  | .contentOp env now sid => (contentHandler env now sid r).1
  | .screenshotOp env now sid sel => (screenshotHandler env now sid sel r).1
  | .deleteOp cenv sid => (destroySession cenv sid r).2.1
  | .sweepOp cenv now => (cleanupExpiredSessions cenv now r).1

/-- The registry after a whole sequence of operations. -/
def runOps (ops : List ServerOp) (r : Registry) : Registry :=
  ops.foldl (fun acc op => applyServerOp op acc) r

/-- A teardown environment in which every close succeeds. -/
def noFailClose : CloseEnv := ⟨fun _ => false, fun _ => false⟩

/-- A teardown environment in which closing page 1 and every browser
fails. -/
def failingClose : CloseEnv := ⟨fun p => p == 1, fun _ => true⟩

/-- Primitive outcomes in which everything succeeds. -/
def okNavEnv : NavEnv := ⟨.ok 1, .ok (), .ok (), .ok "Title", "http://u"⟩

/-- Primitive outcomes in which `page.goto` rejects. -/
def errNavEnv : NavEnv :=
  ⟨.ok 1, .ok (), .error "net::ERR_FAILED", .ok "Title", "http://u"⟩

def okContentEnv : ContentEnv := ⟨.ok 1, .ok "body", .ok "Title", "http://u"⟩

def okShotEnv : ShotEnv :=
  ⟨.ok 1, .ok (), .ok (), .ok (), .ok "b64", .ok "Title", "http://u"⟩

/-- A live session with two pages, for exercising teardown. -/
def sesPair : SessionData := ⟨"a", [1, 2], 0, none, []⟩

/-- A live session with one page and a known `currentUrl`. -/
def sesNav : SessionData := ⟨"n", [5], 0, some "http://old", []⟩

/-- Idle 200000 ms at `now = 600000`: below the 300000 ms timeout. -/
def sesBelow : SessionData := ⟨"below", [], 400000, none, []⟩

/-- Idle exactly 300000 ms at `now = 600000`: at the timeout. -/
def sesAt : SessionData := ⟨"at", [], 300000, none, []⟩

/-- Idle 500000 ms at `now = 600000`: above the timeout. -/
def sesAbove : SessionData := ⟨"above", [], 100000, none, []⟩

/-- Five sessions, all fresh at `now = 600000`. -/
def freshFive : Registry :=
  [⟨"f1", [], 400000, none, []⟩, ⟨"f2", [], 400000, none, []⟩,
   ⟨"f3", [], 400000, none, []⟩, ⟨"f4", [], 400000, none, []⟩,
   ⟨"f5", [], 400000, none, []⟩]

/-- Five sessions of which the first is expired at `now = 600000`. -/
def staleFive : Registry :=
  [⟨"s1", [], 0, none, []⟩, ⟨"f2", [], 400000, none, []⟩,
   ⟨"f3", [], 400000, none, []⟩, ⟨"f4", [], 400000, none, []⟩,
   ⟨"f5", [], 400000, none, []⟩]

/-! ### Basic facts about the association-list `Map` operations -/

theorem mapGet_mapSet_self (r : Registry) (s : SessionData) :
    mapGet (mapSet r s) s.id = some s := by
  induction r with
  | nil => simp [mapGet, mapSet, List.find?]
  | cons t ts ih =>
      by_cases ht : t.id = s.id
      · simp [mapGet, mapSet, ht, List.find?]
      · simpa [mapGet, mapSet, ht, List.find?] using ih

theorem mapGet_mapSet_of_ne (r : Registry) (s : SessionData) (x : String)
    (hx : x ≠ s.id) : mapGet (mapSet r s) x = mapGet r x := by
  have hsx : ¬ s.id = x := fun he => hx he.symm
  induction r with
  | nil => simp [mapGet, mapSet, List.find?, hsx]
  | cons t ts ih =>
      by_cases ht : t.id = s.id
      · have htx : ¬ t.id = x := by rw [ht]; exact hsx
        simp [mapGet, mapSet, ht, List.find?, hsx, htx]
      · by_cases htx : t.id = x
        · simp [mapGet, mapSet, ht, List.find?, htx, hx]
        · simpa [mapGet, mapSet, ht, List.find?, htx] using ih

theorem mapGet_mapDelete_self (r : Registry) (sid : String) :
    mapGet (mapDelete r sid) sid = none := by
  unfold mapGet mapDelete
  rw [List.find?_eq_none]
  intro x hx
  have := List.of_mem_filter hx
  simp only [decide_eq_true_eq] at this ⊢
  exact this

theorem mapGet_filter_none (r : Registry) (p : SessionData → Bool)
    (x : String) (h : mapGet r x = none) : mapGet (r.filter p) x = none := by
  unfold mapGet at *
  rw [List.find?_eq_none] at *
  exact fun s hs => h s (List.mem_of_mem_filter hs)

theorem length_mapSet_present (r : Registry) (s : SessionData) (u : SessionData)
    (hu : mapGet r s.id = some u) : (mapSet r s).length = r.length := by
  induction r with
  | nil => simp [mapGet, List.find?] at hu
  | cons t ts ih =>
      by_cases ht : t.id = s.id
      · simp [mapSet, ht]
      · have hu' : mapGet ts s.id = some u := by
          simpa [mapGet, List.find?, ht] using hu
        simp [mapSet, ht, ih hu']

theorem mem_mapSet (r : Registry) (s t : SessionData) (ht : t ∈ mapSet r s) :
    t ∈ r ∨ t = s := by
  induction r with
  | nil => simpa [mapSet] using ht
  | cons u us ih =>
      by_cases hu : u.id = s.id
      · simp only [mapSet, hu, if_true, List.mem_cons] at ht
        rcases ht with h | h
        · exact Or.inr h
        · exact Or.inl (List.mem_cons_of_mem _ h)
      · simp only [mapSet, hu, if_false, List.mem_cons] at ht
        rcases ht with h | h
        · exact Or.inl (h ▸ List.mem_cons_self _ _)
        · rcases ih h with h' | h'
          · exact Or.inl (List.mem_cons_of_mem _ h')
          · exact Or.inr h'

theorem length_mapSet_le (r : Registry) (s : SessionData) :
    (mapSet r s).length ≤ r.length + 1 := by
  induction r with
  | nil => simp [mapSet]
  | cons t ts ih =>
      by_cases ht : t.id = s.id
      · simp [mapSet, ht]
      · simp only [mapSet, ht, if_false, List.length_cons]
        omega

theorem mapGet_id_eq (r : Registry) (sid : String) (s : SessionData)
    (h : mapGet r sid = some s) : s.id = sid := by
  have := List.find?_some h
  simpa using this

/-- Every live record holds at most one page. -/
def PagesInv (r : Registry) : Prop := ∀ s ∈ r, s.pages.length ≤ 1

theorem pagesInv_filter (r : Registry) (p : SessionData → Bool)
    (h : PagesInv r) : PagesInv (r.filter p) :=
  fun s hs => h s (List.mem_of_mem_filter hs)

theorem pagesInv_mapSet (r : Registry) (s : SessionData) (h : PagesInv r)
    (hs : s.pages.length ≤ 1) : PagesInv (mapSet r s) := by
  intro t ht
  rcases mem_mapSet r s t ht with h' | h'
  · exact h t h'
  · exact h' ▸ hs

/-- The three registry-level facts needed about one in-place `mapSet` of
a record whose id is already live. -/
theorem mapSet_step (r : Registry) (s u : SessionData)
    (hu : mapGet r s.id = some u) :
    (mapSet r s).length = r.length ∧
    (∀ x, mapGet r x = none → mapGet (mapSet r s) x = none) ∧
    mapGet (mapSet r s) s.id = some s := by
  refine ⟨length_mapSet_present r s u hu, ?_, mapGet_mapSet_self r s⟩
  intro x hx
  have hne : x ≠ s.id := by
    intro he
    rw [he, hu] at hx
    exact Option.noConfusion hx
  rw [mapGet_mapSet_of_ne r s x hne]
  exact hx

theorem getSession_err_inv (now : Nat) (sid : String) (r r1 : Registry)
    (e : SrvErr) (h : getSession now sid r = (r1, .error e)) :
    r1 = r ∧ mapGet r sid = none := by
  unfold getSession at h
  cases hm : mapGet r sid with
  | none => rw [hm] at h; exact ⟨(Prod.mk.injEq _ _ _ _ ▸ h).1.symm, rfl⟩
  | some s0 => rw [hm] at h; simp at h

theorem getSession_ok_inv (now : Nat) (sid : String) (r r1 : Registry)
    (s : SessionData) (h : getSession now sid r = (r1, .ok s)) :
    ∃ s0, mapGet r sid = some s0 ∧ s = { s0 with lastAccessed := now } ∧
      r1 = mapSet r s ∧ s.id = sid := by
  unfold getSession at h
  cases hm : mapGet r sid with
  | none => rw [hm] at h; simp at h
  | some s0 =>
      rw [hm] at h
      simp only [Prod.mk.injEq, Except.ok.injEq] at h
      refine ⟨s0, rfl, h.2.symm, ?_, ?_⟩
      · rw [← h.1, ← h.2]
      · rw [← h.2]
        exact mapGet_id_eq r sid s0 hm

theorem getCurrentPage_ok_inv (np : Except String Nat) (s s1 : SessionData)
    (p : Nat) (h : getCurrentPage np s = .ok (s1, p)) :
    s1.id = s.id ∧ s1.lastAccessed = s.lastAccessed ∧
    s1.currentUrl = s.currentUrl ∧
    (s1.pages = s.pages ∨ (s.pages = [] ∧ s1.pages = [p])) := by
  unfold getCurrentPage at h
  by_cases he : s.pages.isEmpty
  · cases np with
    | error e => simp [he] at h
    | ok q =>
        simp only [he, if_true, Except.ok.injEq, Prod.mk.injEq] at h
        have hemp : s.pages = [] := List.isEmpty_iff.mp he
        refine ⟨?_, ?_, ?_, Or.inr ⟨hemp, ?_⟩⟩ <;>
          simp [← h.1, ← h.2, hemp]
  · simp only [Bool.not_eq_true] at he
    simp only [he, Bool.false_eq_true, if_false, Except.ok.injEq,
      Prod.mk.injEq] at h
    refine ⟨?_, ?_, ?_, Or.inl ?_⟩ <;> simp [← h.1]

theorem destroySession_registry (cenv : CloseEnv) (sid : String)
    (r : Registry) :
    (destroySession cenv sid r).2.1 = r.filter (fun s => s.id ≠ sid) := by
  unfold destroySession
  cases hm : mapGet r sid with
  | some s => rfl
  | none =>
      have : ∀ x ∈ r, ¬ (decide (x.id = sid) = true) :=
        List.find?_eq_none.mp hm
      simp only []
      rw [eq_comm, List.filter_eq_self]
      intro a ha
      have := this a ha
      simp only [decide_eq_true_eq] at this
      simp [this]

theorem destroyAll_eq_filter (cenv : CloseEnv) (ids : List String)
    (r : Registry) :
    destroyAll cenv ids r = r.filter (fun s => !(ids.contains s.id)) := by
  induction ids generalizing r with
  | nil =>
      unfold destroyAll
      simp
  | cons i ids ih =>
      have hstep : destroyAll cenv (i :: ids) r =
          destroyAll cenv ids (r.filter (fun s => s.id ≠ i)) := by
        unfold destroyAll
        simp only [List.foldl_cons]
        rw [destroySession_registry]
      rw [hstep, ih, List.filter_filter]
      apply List.filter_congr
      intro s _
      by_cases hi : s.id = i <;> simp [hi]

theorem cleanup_registry (cenv : CloseEnv) (now : Nat) (r : Registry) :
    (cleanupExpiredSessions cenv now r).1 =
      r.filter (fun s => !((expiredIds now r).contains s.id)) := by
  unfold cleanupExpiredSessions
  exact destroyAll_eq_filter cenv (expiredIds now r) r

theorem cleanup_length_le (cenv : CloseEnv) (now : Nat) (r : Registry) :
    (cleanupExpiredSessions cenv now r).1.length ≤ r.length := by
  rw [cleanup_registry]
  exact List.length_filter_le _ r

theorem cleanup_absent (cenv : CloseEnv) (now : Nat) (r : Registry)
    (x : String) (hx : mapGet r x = none) :
    mapGet (cleanupExpiredSessions cenv now r).1 x = none := by
  rw [cleanup_registry]
  exact mapGet_filter_none r _ x hx

theorem cleanup_pagesInv (cenv : CloseEnv) (now : Nat) (r : Registry)
    (h : PagesInv r) : PagesInv (cleanupExpiredSessions cenv now r).1 := by
  rw [cleanup_registry]
  exact pagesInv_filter r _ h

/-- With unique ids (the `Map` invariant), one sweep keeps exactly the
records whose idle time is within the timeout. -/
theorem cleanup_eq_filter_of_nodup (cenv : CloseEnv) (now : Nat)
    (r : Registry) (hnd : (r.map SessionData.id).Nodup) :
    (cleanupExpiredSessions cenv now r).1 =
      r.filter (fun s => now - s.lastAccessed ≤ CONFIG_SESSION_TIMEOUT_MS) := by
  rw [cleanup_registry]
  apply List.filter_congr
  intro s hs
  have hmem : (expiredIds now r).contains s.id = true ↔
      now - s.lastAccessed > CONFIG_SESSION_TIMEOUT_MS := by
    constructor
    · intro hc
      rw [List.contains_eq_any_beq] at hc
      simp only [List.any_eq_true, beq_iff_eq] at hc
      rcases hc with ⟨tid, htid, he⟩
      unfold expiredIds at htid
      simp only [List.mem_map, List.mem_filter, decide_eq_true_eq] at htid
      rcases htid with ⟨t, ⟨htr, hexp⟩, hts⟩
      have : t = s := by
        have hinj := List.inj_on_of_nodup_map hnd
        exact hinj htr hs (by rw [hts, he])
      rwa [← this]
    · intro hexp
      rw [List.contains_eq_any_beq]
      simp only [List.any_eq_true, beq_iff_eq]
      refine ⟨s.id, ?_, rfl⟩
      unfold expiredIds
      simp only [List.mem_map, List.mem_filter, decide_eq_true_eq]
      exact ⟨s, ⟨hs, hexp⟩, rfl⟩
  by_cases hexp : now - s.lastAccessed > CONFIG_SESSION_TIMEOUT_MS
  · rw [hmem.mpr hexp, decide_eq_false (Nat.not_le.mpr hexp)]
    rfl
  · have hc : (expiredIds now r).contains s.id = false := by
      cases hc : (expiredIds now r).contains s.id
      · rfl
      · exact absurd (hmem.mp hc) hexp
    rw [hc, decide_eq_true (Nat.not_lt.mp hexp)]
    rfl

theorem getSession_eq_none (now : Nat) (sid : String) (r : Registry)
    (hm : mapGet r sid = none) :
    getSession now sid r =
      (r, .error (.notFound ("Session not found: " ++ sid))) := by
  unfold getSession
  rw [hm]

theorem getSession_eq_some (now : Nat) (sid : String) (r : Registry)
    (s0 : SessionData) (hm : mapGet r sid = some s0) :
    getSession now sid r =
      (mapSet r { s0 with lastAccessed := now },
       .ok { s0 with lastAccessed := now }) := by
  unfold getSession
  rw [hm]

theorem createSession_length_le (cenv : CloseEnv) (launch : Except String Unit)
    (now : Nat) (newId : String) (meta : List (String × String)) (r : Registry)
    (h : r.length ≤ CONFIG_MAX_SESSIONS) :
    (createSession cenv launch now newId meta r).1.length ≤
      CONFIG_MAX_SESSIONS := by
  unfold createSession
  set r1 := if r.length ≥ CONFIG_MAX_SESSIONS then
      (cleanupExpiredSessions cenv now r).1
    else r with hr1
  have hle : r1.length ≤ r.length := by
    rw [hr1]
    split
    · exact cleanup_length_le cenv now r
    · exact le_refl _
  by_cases hcap : r1.length ≥ CONFIG_MAX_SESSIONS
  · rw [if_pos hcap]
    exact le_trans hle h
  · rw [if_neg hcap]
    cases launch with
    | error e => exact le_trans hle h
    | ok u =>
        have hm := length_mapSet_le r1
          { id := "ses_" ++ newId, pages := [], lastAccessed := now,
            currentUrl := none, metadata := meta }
        simp only [ge_iff_le, not_le] at hcap
        simp only []
        omega

theorem createSession_err_registry (cenv : CloseEnv)
    (launch : Except String Unit) (now : Nat) (newId : String)
    (meta : List (String × String)) (r r1 : Registry) (e : SrvErr)
    (h : createSession cenv launch now newId meta r = (r1, .error e)) :
    ∀ x, mapGet r x = none → mapGet r1 x = none := by
  intro x hx
  unfold createSession at h
  have habs : mapGet (if r.length ≥ CONFIG_MAX_SESSIONS then
      (cleanupExpiredSessions cenv now r).1 else r) x = none := by
    split
    · exact cleanup_absent cenv now r x hx
    · exact hx
  set rc := if r.length ≥ CONFIG_MAX_SESSIONS then
      (cleanupExpiredSessions cenv now r).1 else r with hrc
  by_cases hcap : rc.length ≥ CONFIG_MAX_SESSIONS
  · rw [if_pos hcap] at h
    have : r1 = rc := (Prod.mk.injEq _ _ _ _ ▸ h).1.symm
    rw [this]
    exact habs
  · rw [if_neg hcap] at h
    cases launch with
    | error e2 =>
        have : r1 = rc := (Prod.mk.injEq _ _ _ _ ▸ h).1.symm
        rw [this]
        exact habs
    | ok u => simp at h

theorem createSession_ok_registry (cenv : CloseEnv)
    (launch : Except String Unit) (now : Nat) (newId : String)
    (meta : List (String × String)) (r r1 : Registry) (s : SessionData)
    (h : createSession cenv launch now newId meta r = (r1, .ok s)) :
    s.id = "ses_" ++ newId ∧ mapGet r1 s.id = some s ∧
    (∀ x, mapGet r x = none → x ≠ s.id → mapGet r1 x = none) := by
  unfold createSession at h
  set rc := if r.length ≥ CONFIG_MAX_SESSIONS then
      (cleanupExpiredSessions cenv now r).1 else r with hrc
  by_cases hcap : rc.length ≥ CONFIG_MAX_SESSIONS
  · rw [if_pos hcap] at h
    simp at h
  · rw [if_neg hcap] at h
    cases launch with
    | error e2 => simp at h
    | ok u =>
        simp only [Prod.mk.injEq, Except.ok.injEq] at h
        have hsid : s.id = "ses_" ++ newId := by rw [← h.2]
        refine ⟨hsid, ?_, ?_⟩
        · rw [← h.1, ← h.2]
          exact mapGet_mapSet_self rc _
        · intro x hx hne
          rw [← h.1]
          have habs : mapGet rc x = none := by
            rw [hrc]
            split
            · exact cleanup_absent cenv now r x hx
            · exact hx
          rw [mapGet_mapSet_of_ne rc _ x (by rw [← h.2] at hne; exact hne)]
          exact habs

theorem createSession_pagesInv (cenv : CloseEnv) (launch : Except String Unit)
    (now : Nat) (newId : String) (meta : List (String × String))
    (r : Registry) (h : PagesInv r) :
    PagesInv (createSession cenv launch now newId meta r).1 := by
  unfold createSession
  have hinv : PagesInv (if r.length ≥ CONFIG_MAX_SESSIONS then
      (cleanupExpiredSessions cenv now r).1 else r) := by
    split
    · exact cleanup_pagesInv cenv now r h
    · exact h
  set rc := if r.length ≥ CONFIG_MAX_SESSIONS then
      (cleanupExpiredSessions cenv now r).1 else r with hrc
  by_cases hcap : rc.length ≥ CONFIG_MAX_SESSIONS
  · rw [if_pos hcap]
    exact hinv
  · rw [if_neg hcap]
    cases launch with
    | error e2 => exact hinv
    | ok u =>
        simp only []
        exact pagesInv_mapSet rc _ hinv (by simp)

/-- Common prefix of every page-operation handler: `getSession`
(touching `lastAccessed`) followed by `getCurrentPage` (possibly lazily
creating the single page), both re-inserted at the session's id. -/
theorem sessionPage_step (now : Nat) (sid : String) (r : Registry)
    (s0 : SessionData) (np : Except String Nat) (s1 : SessionData) (p : Nat)
    (hm : mapGet r sid = some s0)
    (hgp : getCurrentPage np { s0 with lastAccessed := now } = .ok (s1, p)) :
    (mapSet (mapSet r { s0 with lastAccessed := now }) s1).length = r.length ∧
    (∀ x, mapGet r x = none →
      mapGet (mapSet (mapSet r { s0 with lastAccessed := now }) s1) x = none) ∧
    mapGet (mapSet (mapSet r { s0 with lastAccessed := now }) s1) s1.id =
      some s1 ∧
    (PagesInv r →
      PagesInv (mapSet (mapSet r { s0 with lastAccessed := now }) s1)) ∧
    s1.currentUrl = s0.currentUrl ∧ s1.id = sid ∧
    (PagesInv r → s1.pages.length ≤ 1) := by
  have hid0 : s0.id = sid := mapGet_id_eq r sid s0 hm
  have hstep1 := mapSet_step r { s0 with lastAccessed := now } s0
    (by simpa [hid0] using hm)
  obtain ⟨hcp1, hcp2, hcp3, hcp4⟩ := getCurrentPage_ok_inv np _ s1 p hgp
  have hstep2 := mapSet_step (mapSet r { s0 with lastAccessed := now }) s1
    { s0 with lastAccessed := now } (by rw [hcp1]; exact hstep1.2.2)
  have hp1 : PagesInv r → s1.pages.length ≤ 1 := by
    intro hinv
    rcases hcp4 with hpe | ⟨_, hpe⟩
    · have := hinv s0 (List.mem_of_find?_eq_some hm)
      simpa [hpe] using this
    · simp [hpe]
  refine ⟨?_, ?_, hstep2.2.2, ?_, hcp3, by rw [hcp1]; exact hid0, hp1⟩
  · rw [hstep2.1, hstep1.1]
  · intro x hx
    exact hstep2.2.1 x (hstep1.2.1 x hx)
  · intro hinv
    have hinv1 : PagesInv (mapSet r { s0 with lastAccessed := now }) := by
      apply pagesInv_mapSet _ _ hinv
      have := hinv s0 (List.mem_of_find?_eq_some hm)
      simpa using this
    exact pagesInv_mapSet _ _ hinv1 (hp1 hinv)

theorem infoHandler_facts (now : Nat) (sid : String) (r : Registry) :
    (infoHandler now sid r).1.length = r.length ∧
    (∀ x, mapGet r x = none → mapGet (infoHandler now sid r).1 x = none) ∧
    (PagesInv r → PagesInv (infoHandler now sid r).1) := by
  unfold infoHandler
  cases hm : mapGet r sid with
  | none =>
      rw [getSession_eq_none now sid r hm]
      exact ⟨rfl, fun x hx => hx, fun h => h⟩
  | some s0 =>
      rw [getSession_eq_some now sid r s0 hm]
      have hstep := mapSet_step r { s0 with lastAccessed := now } s0
        (by simpa [mapGet_id_eq r sid s0 hm] using hm)
      refine ⟨hstep.1, hstep.2.1, ?_⟩
      intro hinv
      apply pagesInv_mapSet _ _ hinv
      have := hinv s0 (List.mem_of_find?_eq_some hm)
      simpa using this

/-- The generic error branch of a page-operation handler: the registry
after a failed `getCurrentPage` is `mapSet r` of the touched record. -/
theorem touchOnly_facts (now : Nat) (sid : String) (r : Registry)
    (s0 : SessionData) (hm : mapGet r sid = some s0) :
    (mapSet r { s0 with lastAccessed := now }).length = r.length ∧
    (∀ x, mapGet r x = none →
      mapGet (mapSet r { s0 with lastAccessed := now }) x = none) ∧
    (PagesInv r → PagesInv (mapSet r { s0 with lastAccessed := now })) := by
  have hstep := mapSet_step r { s0 with lastAccessed := now } s0
    (by simpa [mapGet_id_eq r sid s0 hm] using hm)
  refine ⟨hstep.1, hstep.2.1, ?_⟩
  intro hinv
  apply pagesInv_mapSet _ _ hinv
  have := hinv s0 (List.mem_of_find?_eq_some hm)
  simpa using this

theorem navigateHandler_facts (env : NavEnv) (now : Nat) (sid url : String)
    (r : Registry) :
    (navigateHandler env now sid url r).1.length = r.length ∧
    (∀ x, mapGet r x = none →
      mapGet (navigateHandler env now sid url r).1 x = none) ∧
    (PagesInv r → PagesInv (navigateHandler env now sid url r).1) := by
  unfold navigateHandler
  split
  case _ r1 e heq =>
      obtain ⟨hr1, _⟩ := getSession_err_inv now sid r r1 e heq
      subst hr1
      exact ⟨rfl, fun x hx => hx, fun h => h⟩
  case _ r1 s heq =>
      obtain ⟨s0, hm, hs, hr1, hsid⟩ := getSession_ok_inv now sid r r1 s heq
      subst hs
      subst hr1
      split
      case _ e hgp =>
          exact touchOnly_facts now sid r s0 hm
      case _ sp1 s1 p hgp =>
          have hsp := sessionPage_step now sid r s0 env.newPage s1 p hm hgp
          split
          case _ e hv => exact ⟨hsp.1, hsp.2.1, hsp.2.2.2.1⟩
          case _ u hv =>
              split
              case _ e hg => exact ⟨hsp.1, hsp.2.1, hsp.2.2.2.1⟩
              case _ u2 hg =>
                  have hstep3 := mapSet_step _ { s1 with currentUrl := some url }
                    s1 (by simpa using hsp.2.2.1)
                  have hlen : (mapSet (mapSet (mapSet r
                      { s0 with lastAccessed := now }) s1)
                      { s1 with currentUrl := some url }).length = r.length := by
                    rw [hstep3.1, hsp.1]
                  have habs : ∀ x, mapGet r x = none →
                      mapGet (mapSet (mapSet (mapSet r
                        { s0 with lastAccessed := now }) s1)
                        { s1 with currentUrl := some url }) x = none :=
                    fun x hx => hstep3.2.1 x (hsp.2.1 x hx)
                  have hinv3 : PagesInv r → PagesInv (mapSet (mapSet (mapSet r
                      { s0 with lastAccessed := now }) s1)
                      { s1 with currentUrl := some url }) := by
                    intro hinv
                    exact pagesInv_mapSet _ _ (hsp.2.2.2.1 hinv)
                      (by simpa using hsp.2.2.2.2.2.2 hinv)
                  split
                  case _ e ht => exact ⟨hlen, habs, hinv3⟩
                  case _ t ht => exact ⟨hlen, habs, hinv3⟩

theorem clickHandler_facts (env : ClickEnv) (now : Nat) (sid : String)
    (r : Registry) :
    (clickHandler env now sid r).1.length = r.length ∧
    (∀ x, mapGet r x = none → mapGet (clickHandler env now sid r).1 x = none) ∧
    (PagesInv r → PagesInv (clickHandler env now sid r).1) := by
  unfold clickHandler
  split
  case _ r1 e heq =>
      obtain ⟨hr1, _⟩ := getSession_err_inv now sid r r1 e heq
      subst hr1
      exact ⟨rfl, fun x hx => hx, fun h => h⟩
  case _ r1 s heq =>
      obtain ⟨s0, hm, hs, hr1, hsid⟩ := getSession_ok_inv now sid r r1 s heq
      subst hs
      subst hr1
      split
      case _ e hgp =>
          exact touchOnly_facts now sid r s0 hm
      case _ sp1 s1 p hgp =>
          have hsp := sessionPage_step now sid r s0 env.newPage s1 p hm hgp
          split
          case _ e hc => exact ⟨hsp.1, hsp.2.1, hsp.2.2.2.1⟩
          case _ u hc =>
              split
              case _ e ht => exact ⟨hsp.1, hsp.2.1, hsp.2.2.2.1⟩
              case _ t ht =>
                  have hstep3 := mapSet_step _
                    { s1 with currentUrl := some env.pageUrl } s1
                    (by simpa using hsp.2.2.1)
                  refine ⟨by rw [hstep3.1, hsp.1], ?_, ?_⟩
                  · exact fun x hx => hstep3.2.1 x (hsp.2.1 x hx)
                  · intro hinv
                    exact pagesInv_mapSet _ _ (hsp.2.2.2.1 hinv)
                      (by simpa using hsp.2.2.2.2.2.2 hinv)

theorem evaluateHandler_facts (env : EvalEnv) (now : Nat) (sid : String)
    (r : Registry) :
    (evaluateHandler env now sid r).1.length = r.length ∧
    (∀ x, mapGet r x = none →
      mapGet (evaluateHandler env now sid r).1 x = none) ∧
    (PagesInv r → PagesInv (evaluateHandler env now sid r).1) := by
  unfold evaluateHandler
  split
  case _ r1 e heq =>
      obtain ⟨hr1, _⟩ := getSession_err_inv now sid r r1 e heq
      subst hr1
      exact ⟨rfl, fun x hx => hx, fun h => h⟩
  case _ r1 s heq =>
      obtain ⟨s0, hm, hs, hr1, hsid⟩ := getSession_ok_inv now sid r r1 s heq
      subst hs
      subst hr1
      split
      case _ e hgp =>
          exact touchOnly_facts now sid r s0 hm
      case _ sp1 s1 p hgp =>
          have hsp := sessionPage_step now sid r s0 env.newPage s1 p hm hgp
          split
          case _ e he => exact ⟨hsp.1, hsp.2.1, hsp.2.2.2.1⟩
          case _ v he => exact ⟨hsp.1, hsp.2.1, hsp.2.2.2.1⟩

theorem contentHandler_facts (env : ContentEnv) (now : Nat) (sid : String)
    (r : Registry) :
    (contentHandler env now sid r).1.length = r.length ∧
    (∀ x, mapGet r x = none →
      mapGet (contentHandler env now sid r).1 x = none) ∧
    (PagesInv r → PagesInv (contentHandler env now sid r).1) := by
  unfold contentHandler
  split
  case _ r1 e heq =>
      obtain ⟨hr1, _⟩ := getSession_err_inv now sid r r1 e heq
      subst hr1
      exact ⟨rfl, fun x hx => hx, fun h => h⟩
  case _ r1 s heq =>
      obtain ⟨s0, hm, hs, hr1, hsid⟩ := getSession_ok_inv now sid r r1 s heq
      subst hs
      subst hr1
      split
      case _ e hgp =>
          exact touchOnly_facts now sid r s0 hm
      case _ sp1 s1 p hgp =>
          have hsp := sessionPage_step now sid r s0 env.newPage s1 p hm hgp
          split
          case _ e hc => exact ⟨hsp.1, hsp.2.1, hsp.2.2.2.1⟩
          case _ c hc =>
              split
              case _ e ht => exact ⟨hsp.1, hsp.2.1, hsp.2.2.2.1⟩
              case _ t ht => exact ⟨hsp.1, hsp.2.1, hsp.2.2.2.1⟩

theorem screenshotHandler_facts (env : ShotEnv) (now : Nat) (sid : String)
    (sel : Option String) (r : Registry) :
    (screenshotHandler env now sid sel r).1.length = r.length ∧
    (∀ x, mapGet r x = none →
      mapGet (screenshotHandler env now sid sel r).1 x = none) ∧
    (PagesInv r → PagesInv (screenshotHandler env now sid sel r).1) := by
  unfold screenshotHandler
  split
  case _ r1 e heq =>
      obtain ⟨hr1, _⟩ := getSession_err_inv now sid r r1 e heq
      subst hr1
      exact ⟨rfl, fun x hx => hx, fun h => h⟩
  case _ r1 s heq =>
      obtain ⟨s0, hm, hs, hr1, hsid⟩ := getSession_ok_inv now sid r r1 s heq
      subst hs
      subst hr1
      split
      case _ e hgp =>
          exact touchOnly_facts now sid r s0 hm
      case _ sp1 s1 p hgp =>
          have hsp := sessionPage_step now sid r s0 env.newPage s1 p hm hgp
          split
          case _ e hv => exact ⟨hsp.1, hsp.2.1, hsp.2.2.2.1⟩
          case _ u hv =>
              split
              case _ e hw => exact ⟨hsp.1, hsp.2.1, hsp.2.2.2.1⟩
              case _ u2 hw =>
                  split
                  case _ e hshot => exact ⟨hsp.1, hsp.2.1, hsp.2.2.2.1⟩
                  case _ u3 hshot =>
                      split
                      case _ e hrs => exact ⟨hsp.1, hsp.2.1, hsp.2.2.2.1⟩
                      case _ b64 hrs =>
                          split
                          case _ e ht => exact ⟨hsp.1, hsp.2.1, hsp.2.2.2.1⟩
                          case _ t ht => exact ⟨hsp.1, hsp.2.1, hsp.2.2.2.1⟩

/-- Every control-surface operation keeps the registry within the
configured capacity. -/
theorem applyServerOp_length_le (op : ServerOp) (r : Registry)
    (h : r.length ≤ CONFIG_MAX_SESSIONS) :
    (applyServerOp op r).length ≤ CONFIG_MAX_SESSIONS := by
  cases op with
  | createOp cenv launch now newId meta =>
      exact createSession_length_le cenv launch now newId meta r h
  | infoOp now sid => rw [applyServerOp, (infoHandler_facts now sid r).1]; exact h
  | navigateOp env now sid url =>
      rw [applyServerOp, (navigateHandler_facts env now sid url r).1]; exact h
  | clickOp env now sid =>
      rw [applyServerOp, (clickHandler_facts env now sid r).1]; exact h
  | evaluateOp env now sid =>
      rw [applyServerOp, (evaluateHandler_facts env now sid r).1]; exact h
  | contentOp env now sid =>
      rw [applyServerOp, (contentHandler_facts env now sid r).1]; exact h
  | screenshotOp env now sid sel =>
      rw [applyServerOp, (screenshotHandler_facts env now sid sel r).1]; exact h
  | deleteOp cenv sid =>
      rw [applyServerOp, destroySession_registry]
      exact le_trans (List.length_filter_le _ r) h
  | sweepOp cenv now =>
      exact le_trans (cleanup_length_le cenv now r) h

/-- Every control-surface operation preserves the one-page invariant. -/
theorem applyServerOp_pagesInv (op : ServerOp) (r : Registry)
    (h : PagesInv r) : PagesInv (applyServerOp op r) := by
  cases op with
  | createOp cenv launch now newId meta =>
      exact createSession_pagesInv cenv launch now newId meta r h
  | infoOp now sid => exact (infoHandler_facts now sid r).2.2 h
  | navigateOp env now sid url =>
      exact (navigateHandler_facts env now sid url r).2.2 h
  | clickOp env now sid => exact (clickHandler_facts env now sid r).2.2 h
  | evaluateOp env now sid => exact (evaluateHandler_facts env now sid r).2.2 h
  | contentOp env now sid => exact (contentHandler_facts env now sid r).2.2 h
  | screenshotOp env now sid sel =>
      exact (screenshotHandler_facts env now sid sel r).2.2 h
  | deleteOp cenv sid =>
      show PagesInv (destroySession cenv sid r).2.1
      rw [destroySession_registry]
      exact pagesInv_filter r _ h
  | sweepOp cenv now => exact cleanup_pagesInv cenv now r h

theorem runOps_length_le (ops : List ServerOp) (r : Registry)
    (h : r.length ≤ CONFIG_MAX_SESSIONS) :
    (runOps ops r).length ≤ CONFIG_MAX_SESSIONS := by
  induction ops generalizing r with
  | nil => exact h
  | cons op ops ih =>
      exact ih (applyServerOp op r) (applyServerOp_length_le op r h)

theorem runOps_pagesInv (ops : List ServerOp) (r : Registry)
    (h : PagesInv r) : PagesInv (runOps ops r) := by
  induction ops generalizing r with
  | nil => exact h
  | cons op ops ih =>
      exact ih (applyServerOp op r) (applyServerOp_pagesInv op r h)

theorem createSession_eq_at_capacity (cenv : CloseEnv)
    (launch : Except String Unit) (now : Nat) (newId : String)
    (meta : List (String × String)) (r : Registry)
    (hge : r.length ≥ CONFIG_MAX_SESSIONS)
    (hc : (cleanupExpiredSessions cenv now r).1.length ≥ CONFIG_MAX_SESSIONS) :
    createSession cenv launch now newId meta r =
      ((cleanupExpiredSessions cenv now r).1,
       .error (.capacityExceeded capacityMsg)) := by
  unfold createSession
  simp only [if_pos hge, if_pos hc]

theorem createSession_eq_swept_ok (cenv : CloseEnv) (now : Nat)
    (newId : String) (meta : List (String × String)) (r : Registry)
    (hge : r.length ≥ CONFIG_MAX_SESSIONS)
    (hlt : (cleanupExpiredSessions cenv now r).1.length < CONFIG_MAX_SESSIONS) :
    createSession cenv (.ok ()) now newId meta r =
      (mapSet (cleanupExpiredSessions cenv now r).1
        { id := "ses_" ++ newId, pages := [], lastAccessed := now,
          currentUrl := none, metadata := meta },
       .ok { id := "ses_" ++ newId, pages := [], lastAccessed := now,
             currentUrl := none, metadata := meta }) := by
  unfold createSession
  simp only [if_pos hge, if_neg (not_le.mpr hlt)]

theorem infoHandler_eq_some (now : Nat) (sid : String) (r : Registry)
    (s0 : SessionData) (hm : mapGet r sid = some s0) :
    infoHandler now sid r =
      (mapSet r { s0 with lastAccessed := now },
       .ok { id := s0.id, pagesCount := s0.pages.length,
             currentUrl := s0.currentUrl, lastAccessed := now,
             idleTime := now - now, metadata := s0.metadata }) := by
  unfold infoHandler
  rw [getSession_eq_some now sid r s0 hm]

theorem infoHandler_ok_inv (now : Nat) (sid : String) (r : Registry)
    (resp : InfoResponse) (h : (infoHandler now sid r).2 = .ok resp) :
    ∃ s0, mapGet r sid = some s0 ∧ resp.pagesCount = s0.pages.length := by
  unfold infoHandler at h
  split at h
  case _ r1 e heq => simp at h
  case _ r1 s heq =>
      obtain ⟨s0, hm, hs, _, _⟩ := getSession_ok_inv now sid r r1 s heq
      refine ⟨s0, hm, ?_⟩
      simp only [Except.ok.injEq] at h
      rw [← h, hs]

theorem routeCreate_err (cenv : CloseEnv) (launch : Except String Unit)
    (now : Nat) (newId : String) (meta : List (String × String))
    (r rc : Registry) (e : SrvErr)
    (h : createSession cenv launch now newId meta r = (rc, .error e)) :
    routeCreate cenv launch now newId meta r = (rc, ⟨false, none⟩) := by
  unfold routeCreate
  rw [h]

theorem routeCreate_ok (cenv : CloseEnv) (launch : Except String Unit)
    (now : Nat) (newId : String) (meta : List (String × String))
    (r rc : Registry) (s : SessionData)
    (h : createSession cenv launch now newId meta r = (rc, .ok s)) :
    routeCreate cenv launch now newId meta r = (rc, ⟨true, some s.id⟩) := by
  unfold routeCreate
  rw [h]

theorem routeNavigate_fst (env : NavEnv) (now : Nat) (sid url : String)
    (r : Registry) :
    (routeNavigate env now sid url r).1 = (navigateHandler env now sid url r).1 := by
  unfold routeNavigate
  rcases h : navigateHandler env now sid url r with ⟨r1, res⟩
  cases res <;> rfl

theorem routeContent_fst (env : ContentEnv) (now : Nat) (sid : String)
    (r : Registry) :
    (routeContent env now sid r).1 = (contentHandler env now sid r).1 := by
  unfold routeContent
  rcases h : contentHandler env now sid r with ⟨r1, res⟩
  cases res <;> rfl

theorem routeScreenshot_fst (env : ShotEnv) (now : Nat) (sid : String)
    (sel : Option String) (r : Registry) :
    (routeScreenshot env now sid sel r).1 =
      (screenshotHandler env now sid sel r).1 := by
  unfold routeScreenshot
  rcases h : screenshotHandler env now sid sel r with ⟨r1, res⟩
  cases res <;> rfl

theorem routeDelete_fst (cenv : CloseEnv) (sid : String) (r : Registry) :
    (routeDelete cenv sid r).1 = (destroySession cenv sid r).2.1 := by
  unfold routeDelete
  rcases h : destroySession cenv sid r with ⟨d, r1, tr⟩
  rfl

/-- After the delete request of an ephemeral wrapper, its temporary
session id is gone, whatever the registry held. -/
theorem routeDelete_absent (cenv : CloseEnv) (sid : String) (r : Registry) :
    mapGet (routeDelete cenv sid r).1 sid = none := by
  rw [routeDelete_fst, destroySession_registry]
  exact mapGet_mapDelete_self r sid

theorem routeDelete_absent_other (cenv : CloseEnv) (sid x : String)
    (r : Registry) (hx : mapGet r x = none) :
    mapGet (routeDelete cenv sid r).1 x = none := by
  rw [routeDelete_fst, destroySession_registry]
  exact mapGet_filter_none r _ x hx

end BrowserServer

open BrowserServer
open McpAdapter

/-- The create–navigate–content–delete tail of the ephemeral navigate
wrapper removes any id that was absent before it, and always removes the
active id itself. -/
theorem navigateTail_absent (cenv : CloseEnv) (nav : NavEnv) (cont : ContentEnv)
    (now : Nat) (active url x : String) (r1 : Registry)
    (hx : mapGet r1 x = none ∨ x = active) :
    mapGet (routeDelete cenv active
      (routeContent cont now active
        (routeNavigate nav now active url r1).1).1).1 x = none := by
  rcases hx with hx | hx
  · apply routeDelete_absent_other
    rw [routeContent_fst]
    apply (contentHandler_facts cont now active _).2.1
    rw [routeNavigate_fst]
    exact (navigateHandler_facts nav now active url r1).2.1 x hx
  · rw [hx]
    exact routeDelete_absent cenv active _

/-- The analogue of `navigateTail_absent` for the screenshot wrapper. -/
theorem shotTail_absent (cenv : CloseEnv) (nav : NavEnv) (shot : ShotEnv)
    (now : Nat) (active url x : String) (sel : Option String) (r1 : Registry)
    (hx : mapGet r1 x = none ∨ x = active) :
    mapGet (routeDelete cenv active
      (routeScreenshot shot now active sel
        (routeNavigate nav now active url r1).1).1).1 x = none := by
  rcases hx with hx | hx
  · apply routeDelete_absent_other
    rw [routeScreenshot_fst]
    apply (screenshotHandler_facts shot now active sel _).2.1
    rw [routeNavigate_fst]
    exact (navigateHandler_facts nav now active url r1).2.1 x hx
  · rw [hx]
    exact routeDelete_absent cenv active _

/-- With no throwing transport, the ephemeral navigate wrapper is the
straight-line create; navigate; content; delete pipeline. -/
theorem puppeteerNavigateTool_noThrow (cenv : CloseEnv)
    (launch : Except String Unit) (nav : NavEnv) (cont : ContentEnv)
    (now : Nat) (newId url : String) (r : Registry) :
    puppeteerNavigateTool noThrowTransport cenv launch nav cont now newId
      none url r =
      ((routeDelete cenv
         ((routeCreate cenv launch now newId [("temporary", "true")]
            r).2.sessionId.getD "undefined")
         (routeContent cont now
           ((routeCreate cenv launch now newId [("temporary", "true")]
              r).2.sessionId.getD "undefined")
           (routeNavigate nav now
             ((routeCreate cenv launch now newId [("temporary", "true")]
                r).2.sessionId.getD "undefined")
             url
             (routeCreate cenv launch now newId [("temporary", "true")]
               r).1).1).1).1,
       false) := rfl

/-- With no throwing transport, the ephemeral screenshot wrapper is the
straight-line create; navigate; screenshot; delete pipeline. -/
theorem puppeteerScreenshotTool_noThrow (cenv : CloseEnv)
    (launch : Except String Unit) (nav : NavEnv) (shot : ShotEnv)
    (now : Nat) (newId url : String) (sel : Option String) (r : Registry) :
    puppeteerScreenshotTool noThrowTransport cenv launch nav shot now newId
      none (some url) sel r =
      ((routeDelete cenv
         ((routeCreate cenv launch now newId [("temporary", "true")]
            r).2.sessionId.getD "undefined")
         (routeScreenshot shot now
           ((routeCreate cenv launch now newId [("temporary", "true")]
              r).2.sessionId.getD "undefined")
           sel
           (routeNavigate nav now
             ((routeCreate cenv launch now newId [("temporary", "true")]
                r).2.sessionId.getD "undefined")
             url
             (routeCreate cenv launch now newId [("temporary", "true")]
               r).1).1).1).1,
       false) := rfl

/-- C1 (counterexample): an ephemeral `puppeteer_navigate` call whose
navigate request throws at the transport layer (curl failure) skips the
DELETE entirely — one temporary session remains in the registry after
the wrapper returns its error result, so the cleanup-on-all-exit-paths
claim is false. -/
theorem ephemeral_cleanup_counterexample :
    ((puppeteerNavigateTool navThrowsTransport noFailClose (.ok ())
        okNavEnv okContentEnv 0 "t1" none "http://example.com" []).1).length
      = 1 ∧
    (puppeteerNavigateTool navThrowsTransport noFailClose (.ok ())
        okNavEnv okContentEnv 0 "t1" none "http://example.com" []).2
      = true := by
  decide

/-- C1 (amended): when every transport request of the ephemeral wrapper
completes without throwing — even if the navigate, content, or
screenshot operation itself reports failure, or the create fails at
capacity — the temporary session id is absent from the registry when the
wrapper returns, for both the navigate and the screenshot wrapper. -/
theorem ephemeral_cleanup_amended (cenv : CloseEnv)
    (launch : Except String Unit) (nav : NavEnv) (cont : ContentEnv)
    (shot : ShotEnv) (now : Nat) (newId url : String) (sel : Option String)
    (r : Registry) (hfresh : mapGet r ("ses_" ++ newId) = none) :
    mapGet (puppeteerNavigateTool noThrowTransport cenv launch nav cont now
      newId none url r).1 ("ses_" ++ newId) = none ∧
    mapGet (puppeteerScreenshotTool noThrowTransport cenv launch nav shot now
      newId none (some url) sel r).1 ("ses_" ++ newId) = none := by
  constructor
  · rw [puppeteerNavigateTool_noThrow]
    rcases hc : createSession cenv launch now newId [("temporary", "true")] r
      with ⟨rc, res⟩
    cases res with
    | error e =>
        rw [routeCreate_err cenv launch now newId _ r rc e hc]
        exact navigateTail_absent cenv nav cont now "undefined" url _ rc
          (Or.inl (createSession_err_registry cenv launch now newId _ r rc e
            hc _ hfresh))
    | ok s =>
        rw [routeCreate_ok cenv launch now newId _ r rc s hc]
        have hsid := (createSession_ok_registry cenv launch now newId _ r rc
          s hc).1
        exact navigateTail_absent cenv nav cont now s.id url _ rc
          (Or.inr hsid.symm)
  · rw [puppeteerScreenshotTool_noThrow]
    rcases hc : createSession cenv launch now newId [("temporary", "true")] r
      with ⟨rc, res⟩
    cases res with
    | error e =>
        rw [routeCreate_err cenv launch now newId _ r rc e hc]
        exact shotTail_absent cenv nav shot now "undefined" url _ sel rc
          (Or.inl (createSession_err_registry cenv launch now newId _ r rc e
            hc _ hfresh))
    | ok s =>
        rw [routeCreate_ok cenv launch now newId _ r rc s hc]
        have hsid := (createSession_ok_registry cenv launch now newId _ r rc
          s hc).1
        exact shotTail_absent cenv nav shot now s.id url _ sel rc
          (Or.inr hsid.symm)

/-- C1 (witness for the amended theorem), at a concrete ephemeral call
on the empty registry. -/
theorem ephemeral_cleanup_amended_witness :
    mapGet (puppeteerNavigateTool noThrowTransport noFailClose (.ok ())
      okNavEnv okContentEnv 0 "t1" none "http://example.com" []).1
      ("ses_" ++ "t1") = none ∧
    mapGet (puppeteerScreenshotTool noThrowTransport noFailClose (.ok ())
      okNavEnv okShotEnv 0 "t1" none (some "http://example.com") none []).1
      ("ses_" ++ "t1") = none := by
  have h := ephemeral_cleanup_amended noFailClose (.ok ()) okNavEnv
    okContentEnv okShotEnv 0 "t1" "http://example.com" none [] (by decide)
  exact ⟨h.1, h.2⟩

/-- C2: over any sequence of control-surface operations the registry
never exceeds `MAX_SESSIONS`; and a create issued at capacity inserts
its fresh record only if the opportunistic sweep first freed a slot. -/
theorem capacity_never_exceeded (ops : List ServerOp) (r : Registry)
    (h : r.length ≤ CONFIG_MAX_SESSIONS) :
    (runOps ops r).length ≤ CONFIG_MAX_SESSIONS ∧
    (∀ (cenv : CloseEnv) (launch : Except String Unit) (now : Nat)
       (newId : String) (meta : List (String × String)),
      r.length = CONFIG_MAX_SESSIONS →
      mapGet r ("ses_" ++ newId) = none →
      mapGet (createSession cenv launch now newId meta r).1
        ("ses_" ++ newId) ≠ none →
      (cleanupExpiredSessions cenv now r).1.length < CONFIG_MAX_SESSIONS) := by
  refine ⟨runOps_length_le ops r h, ?_⟩
  intro cenv launch now newId meta hcap hfresh hins
  by_cases hcl :
      (cleanupExpiredSessions cenv now r).1.length ≥ CONFIG_MAX_SESSIONS
  · exfalso
    apply hins
    rw [createSession_eq_at_capacity cenv launch now newId meta r
      (le_of_eq hcap.symm) hcl]
    exact cleanup_absent cenv now r _ hfresh
  · exact not_le.mp hcl

/-- C2 (witness): one more create on a full registry of five fresh
sessions still leaves at most five records. -/
theorem capacity_never_exceeded_witness :
    (runOps [.createOp noFailClose (.ok ()) 600000 "w" []]
      freshFive).length ≤ CONFIG_MAX_SESSIONS :=
  (capacity_never_exceeded [.createOp noFailClose (.ok ()) 600000 "w" []]
    freshFive (by decide)).1

/-- C3: a create at capacity succeeds when some session is idle past the
timeout (the synchronous sweep frees a slot), and fails with the
capacity error — carrying a message that names the configured limit and
machine-distinguishable from `NotFound`/`OperationFailed` — when every
session is fresh. -/
theorem admission_at_capacity (cenv : CloseEnv) (now : Nat) (newId : String)
    (meta : List (String × String)) (r : Registry)
    (hcap : r.length = CONFIG_MAX_SESSIONS) :
    ((∃ s ∈ r, now - s.lastAccessed > CONFIG_SESSION_TIMEOUT_MS) →
      ∃ s2, (createSession cenv (.ok ()) now newId meta r).2 = .ok s2) ∧
    ((∀ s ∈ r, now - s.lastAccessed ≤ CONFIG_SESSION_TIMEOUT_MS) →
      ∀ launch, (createSession cenv launch now newId meta r).2 =
        .error (.capacityExceeded capacityMsg)) ∧
    (∀ m, SrvErr.capacityExceeded capacityMsg ≠ SrvErr.notFound m) ∧
    (∀ m, SrvErr.capacityExceeded capacityMsg ≠ SrvErr.operationFailed m) ∧
    (∃ pre post, capacityMsg = pre ++ toString CONFIG_MAX_SESSIONS ++ post) := by
  refine ⟨?_, ?_, fun m hne => SrvErr.noConfusion hne,
    fun m hne => SrvErr.noConfusion hne,
    ⟨"Maximum session limit reached (", ")", rfl⟩⟩
  · rintro ⟨s, hs, hexp⟩
    have hlt : (cleanupExpiredSessions cenv now r).1.length <
        CONFIG_MAX_SESSIONS := by
      rw [cleanup_registry]
      have hlt2 : (r.filter
          (fun s => !((expiredIds now r).contains s.id))).length < r.length := by
        rw [List.length_filter_lt_length_iff_exists]
        refine ⟨s, hs, ?_⟩
        have hmem : s.id ∈ expiredIds now r := by
          unfold expiredIds
          simp only [List.mem_map, List.mem_filter, decide_eq_true_eq]
          exact ⟨s, ⟨hs, hexp⟩, rfl⟩
        simp [hmem]
      rw [hcap] at hlt2
      exact hlt2
    rw [createSession_eq_swept_ok cenv now newId meta r
      (le_of_eq hcap.symm) hlt]
    exact ⟨_, rfl⟩
  · intro hall launch
    have hids : expiredIds now r = [] := by
      unfold expiredIds
      rw [List.map_eq_nil_iff]
      rw [List.filter_eq_nil_iff]
      intro a ha
      simp only [decide_eq_true_eq, not_lt]
      exact hall a ha
    have hcl : (cleanupExpiredSessions cenv now r).1 = r := by
      unfold cleanupExpiredSessions
      rw [hids]
      rfl
    rw [createSession_eq_at_capacity cenv launch now newId meta r
      (le_of_eq hcap.symm) (by rw [hcl]; exact le_of_eq hcap.symm)]

/-- C3 (witness): at capacity, a registry with one stale session admits
the create; a registry of five fresh sessions rejects it with the
capacity error. -/
theorem admission_at_capacity_witness :
    (∃ s2, (createSession noFailClose (.ok ()) 600000 "w" []
      staleFive).2 = .ok s2) ∧
    (createSession noFailClose (.ok ()) 600000 "w" [] freshFive).2 =
      .error (.capacityExceeded capacityMsg) := by
  have h1 := admission_at_capacity noFailClose 600000 "w" [] staleFive
    (by decide)
  have h2 := admission_at_capacity noFailClose 600000 "w" [] freshFive
    (by decide)
  exact ⟨h1.1 (by decide), h2.2.1 (by decide) (.ok ())⟩

/-- C4: one sweep at time `now` keeps exactly the records whose idle
time `now - lastAccessedAt` is at most `SESSION_TIMEOUT` and destroys
exactly those strictly above it (the collected count it reports), the
ids being collected before any destruction begins. -/
theorem sweep_evicts_exactly_expired (cenv : CloseEnv) (now : Nat)
    (r : Registry) (hnd : (r.map SessionData.id).Nodup) :
    (cleanupExpiredSessions cenv now r).1 =
      r.filter (fun s => now - s.lastAccessed ≤ CONFIG_SESSION_TIMEOUT_MS) ∧
    (cleanupExpiredSessions cenv now r).2 =
      (r.filter
        (fun s => now - s.lastAccessed > CONFIG_SESSION_TIMEOUT_MS)).length := by
  refine ⟨cleanup_eq_filter_of_nodup cenv now r hnd, ?_⟩
  unfold cleanupExpiredSessions expiredIds
  simp

/-- C4 (witness): with idle times below, exactly at, and above the
threshold, only the session above it is evicted. -/
theorem sweep_evicts_exactly_expired_witness :
    (cleanupExpiredSessions noFailClose 600000
      [sesBelow, sesAt, sesAbove]).1 = [sesBelow, sesAt] ∧
    (cleanupExpiredSessions noFailClose 600000
      [sesBelow, sesAt, sesAbove]).2 = 1 := by
  have h := sweep_evicts_exactly_expired noFailClose 600000
    [sesBelow, sesAt, sesAbove] (by decide)
  rw [h.1, h.2]
  exact ⟨by decide, by decide⟩

/-- C5: destroying a live session attempts to close every page (page
close failures only add log lines), attempts the browser close, removes
the map entry, and returns `true` — whatever teardown failures the
environment injects. -/
theorem destroy_teardown (cenv : CloseEnv) (sid : String) (r : Registry)
    (s : SessionData) (h : mapGet r sid = some s) :
    (destroySession cenv sid r).1 = true ∧
    (destroySession cenv sid r).2.1 = mapDelete r sid ∧
    (destroySession cenv sid r).2.2.pagesAttempted = s.pages ∧
    (destroySession cenv sid r).2.2.browserAttempted = true ∧
    mapGet (destroySession cenv sid r).2.1 sid = none := by
  have hd : destroySession cenv sid r =
      (true, mapDelete r sid,
       ⟨s.pages, true,
        ((s.pages.filter (fun p => cenv.pageCloseFails p)).map
          (fun p => "[SESSION] Error closing page " ++ toString p)) ++
        (if cenv.browserCloseFails s.id then
          ["[SESSION] Error destroying session " ++ sid] else [])⟩) := by
    unfold destroySession
    rw [h]
  rw [hd]
  exact ⟨rfl, rfl, rfl, rfl, mapGet_mapDelete_self r sid⟩

/-- C5 (witness): a session with two pages, a failing close on page 1
and a failing browser close: both pages are still attempted, the entry
is removed, and destroy returns `true`. -/
theorem destroy_teardown_witness :
    (destroySession failingClose "a" [sesPair]).1 = true ∧
    (destroySession failingClose "a" [sesPair]).2.2.pagesAttempted =
      [1, 2] ∧
    (destroySession failingClose "a" [sesPair]).2.2.browserAttempted =
      true ∧
    (destroySession failingClose "a" [sesPair]).2.1 = [] ∧
    mapGet (destroySession failingClose "a" [sesPair]).2.1 "a" = none := by
  have h := destroy_teardown failingClose "a" [sesPair] sesPair (by decide)
  refine ⟨h.1, ?_, h.2.2.2.1, ?_, h.2.2.2.2⟩
  · rw [h.2.2.1]
    decide
  · rw [h.2.1]
    decide

/-- C6: `destroy` is total and idempotent: it returns `true` exactly on
a live id, a second destroy of the same id returns `false`, and on an
absent id it returns `false` leaving the registry untouched (the model
is a total function — no exception escapes). -/
theorem destroy_idempotent (cenv : CloseEnv) (sid : String) (r : Registry) :
    (destroySession cenv sid r).1 = (mapGet r sid).isSome ∧
    ((mapGet r sid).isSome = true →
      (destroySession cenv sid (destroySession cenv sid r).2.1).1 = false) ∧
    (mapGet r sid = none →
      destroySession cenv sid r = (false, r, ⟨[], false, []⟩)) := by
  cases hm : mapGet r sid with
  | none =>
      have hd : destroySession cenv sid r = (false, r, ⟨[], false, []⟩) := by
        unfold destroySession
        rw [hm]
      refine ⟨by simp [hd], ?_, fun _ => hd⟩
      intro hsome
      simp at hsome
  | some s =>
      have hd1 : (destroySession cenv sid r).1 = true := by
        unfold destroySession
        rw [hm]
      have hd2 : (destroySession cenv sid r).2.1 = mapDelete r sid := by
        unfold destroySession
        rw [hm]
      refine ⟨by simp [hd1], ?_, ?_⟩
      · intro _
        rw [hd2]
        unfold destroySession
        rw [mapGet_mapDelete_self r sid]
      · intro hcontra
        exact Option.noConfusion hcontra

/-- C6 (witness): destroying the same id twice returns `true` then
`false`. -/
theorem destroy_idempotent_witness :
    (destroySession noFailClose "a" [sesPair]).1 = true ∧
    (destroySession noFailClose "a"
      (destroySession noFailClose "a" [sesPair]).2.1).1 = false := by
  have h := destroy_idempotent noFailClose "a" [sesPair]
  exact ⟨by rw [h.1]; decide, h.2.1 (by decide)⟩

/-- C7: on a live session, if `page.goto` rejects, the navigate route
answers with the structured failure carrying the underlying message and
the session's `currentUrl` is unchanged; conversely, `currentUrl` can
only have changed if the navigation primitive succeeded. -/
theorem navigate_failure_preserves_currentUrl (env : NavEnv) (now : Nat)
    (sid url : String) (r : Registry) (s0 : SessionData)
    (hm : mapGet r sid = some s0) :
    (∀ e, env.viewport = .ok () → env.goto = .error e →
      (s0.pages.isEmpty = true → ∃ p, env.newPage = .ok p) →
      (navigateHandler env now sid url r).2 =
        .error (.operationFailed e) ∧
      (mapGet (navigateHandler env now sid url r).1 sid).map
        (fun s => s.currentUrl) = some s0.currentUrl) ∧
    ((mapGet (navigateHandler env now sid url r).1 sid).map
        (fun s => s.currentUrl) ≠ some s0.currentUrl →
      env.goto = .ok ()) := by
  have hid0 : s0.id = sid := mapGet_id_eq r sid s0 hm
  have hstep := mapSet_step r { s0 with lastAccessed := now } s0
    (by simpa [hid0] using hm)
  have htouch : (mapGet (mapSet r { s0 with lastAccessed := now }) sid).map
      (fun s => s.currentUrl) = some s0.currentUrl := by
    have h3 : mapGet (mapSet r { s0 with lastAccessed := now }) sid =
        some { s0 with lastAccessed := now } := by
      have h4 := mapGet_mapSet_self r { s0 with lastAccessed := now }
      simpa [hid0] using h4
    rw [h3]
    rfl
  unfold navigateHandler
  split
  case _ r1 e2 heq =>
      obtain ⟨hr1, hnone⟩ := getSession_err_inv now sid r r1 e2 heq
      subst hr1
      rw [hm] at hnone
      exact Option.noConfusion hnone
  case _ r1 s heq =>
      obtain ⟨s0x, hmx, hs, hr1, hsid⟩ := getSession_ok_inv now sid r r1 s heq
      rw [hm] at hmx
      injection hmx with hmx2
      subst hmx2
      subst hs
      subst hr1
      split
      case _ e3 hgp =>
          constructor
          · intro e hv hg hnp
            exfalso
            unfold getCurrentPage at hgp
            by_cases hemp :
                ({ s0 with lastAccessed := now } : SessionData).pages.isEmpty
            · rw [if_pos hemp] at hgp
              obtain ⟨p, hp⟩ := hnp (by simpa using hemp)
              rw [hp] at hgp
              exact Except.noConfusion hgp
            · rw [if_neg hemp] at hgp
              exact Except.noConfusion hgp
          · intro hne
            exact absurd htouch hne
      case _ sp1 s1 p hgp =>
          have hsp := sessionPage_step now sid r s0 env.newPage s1 p hm hgp
          have hr2 : (mapGet (mapSet (mapSet r
              { s0 with lastAccessed := now }) s1) sid).map
              (fun s => s.currentUrl) = some s0.currentUrl := by
            have hg3 := hsp.2.2.1
            rw [hsp.2.2.2.2.2.1] at hg3
            rw [hg3]
            simp [hsp.2.2.2.2.1]
          split
          case _ e4 hv2 =>
              constructor
              · intro e hv hg hnp
                rw [hv] at hv2
                exact Except.noConfusion hv2
              · intro hne
                exact absurd hr2 hne
          case _ u hv2 =>
              split
              case _ e5 hg2 =>
                  constructor
                  · intro e hv hg hnp
                    rw [hg] at hg2
                    injection hg2 with he
                    subst he
                    exact ⟨rfl, hr2⟩
                  · intro hne
                    exact absurd hr2 hne
              case _ u2 hg2 =>
                  constructor
                  · intro e hv hg hnp
                    rw [hg] at hg2
                    exact Except.noConfusion hg2
                  · intro hne
                    cases u2
                    exact hg2

/-- C7 (witness): a rejected `goto` on a session whose `currentUrl` is
`http://old` surfaces the message and leaves `currentUrl` at
`http://old`. -/
theorem navigate_failure_preserves_currentUrl_witness :
    (navigateHandler errNavEnv 1000 "n" "http://new" [sesNav]).2 =
      .error (.operationFailed "net::ERR_FAILED") ∧
    (mapGet (navigateHandler errNavEnv 1000 "n" "http://new"
      [sesNav]).1 "n").map (fun s => s.currentUrl) =
      some (some "http://old") := by
  have h := navigate_failure_preserves_currentUrl errNavEnv 1000 "n"
    "http://new" [sesNav] sesNav (by decide)
  have h1 := h.1 "net::ERR_FAILED" rfl rfl
    (fun hemp => absurd hemp (by decide))
  exact ⟨h1.1, h1.2⟩

/-- C8 (counterexample): the health JSON has no `activeSessions` key:
the live-count field is named `sessions`, so the claimed result shape
`{activeSessions, maxSessions, uptime}` fails already at the empty
registry with zero uptime. -/
theorem health_fields_counterexample :
    (healthHandler [] 0).lookup "activeSessions" = none := by decide

/-- C8 (amended): health never fails — it is a total function of the
registry and the uptime — and its JSON carries `status = "ok"`, the
live record count under the key `sessions` (not `activeSessions`), the
configured limit under `maxSessions`, and the process uptime under
`uptime`. -/
theorem health_fields_amended (r : Registry) (uptime : Nat) :
    (healthHandler r uptime).lookup "status" = some (.jstr "ok") ∧
    (healthHandler r uptime).lookup "sessions" = some (.jnat r.length) ∧
    (healthHandler r uptime).lookup "maxSessions" =
      some (.jnat CONFIG_MAX_SESSIONS) ∧
    (healthHandler r uptime).lookup "uptime" = some (.jnat uptime) ∧
    (healthHandler r uptime).lookup "activeSessions" = none :=
  ⟨rfl, rfl, rfl, rfl, rfl⟩

/-- C9: from an empty registry, every reachable state keeps each record
at ≤ 1 page (pages are only created lazily, one per session), so the
`pagesCount` reported by the list and info routes is 0 or 1 and the
`MAX_PAGES_PER_SESSION` bound of 10 is never reached. -/
theorem single_page_invariant (ops : List ServerOp) (now : Nat)
    (sid : String) :
    ((runOps ops []).all (fun s => decide (s.pages.length ≤ 1 ∧
        s.pages.length < CONFIG_MAX_PAGES_PER_SESSION))) = true ∧
    ((listHandler now (runOps ops [])).all
      (fun resp => decide (resp.pagesCount ≤ 1))) = true ∧
    ((infoHandler now sid (runOps ops [])).2.toOption.all
      (fun resp => decide (resp.pagesCount ≤ 1))) = true := by
  have hinv : PagesInv (runOps ops []) :=
    runOps_pagesInv ops [] (fun s hs => absurd hs (List.not_mem_nil s))
  refine ⟨?_, ?_, ?_⟩
  · rw [List.all_eq_true]
    intro s hs
    have h1 := hinv s hs
    simp only [decide_eq_true_eq]
    refine ⟨h1, lt_of_le_of_lt h1 ?_⟩
    norm_num [CONFIG_MAX_PAGES_PER_SESSION]
  · rw [List.all_eq_true]
    intro resp hresp
    unfold listHandler at hresp
    rw [List.mem_map] at hresp
    obtain ⟨s, hs, he⟩ := hresp
    have h1 := hinv s hs
    simp only [decide_eq_true_eq]
    rw [← he]
    exact h1
  · cases hi : (infoHandler now sid (runOps ops [])).2 with
    | error e => rfl
    | ok resp =>
        obtain ⟨s0, hm0, hpc⟩ := infoHandler_ok_inv now sid _ resp hi
        have h1 := hinv s0 (List.mem_of_find?_eq_some hm0)
        simp [Except.toOption, Option.all, hpc, h1]

/-- C10: a successful info lookup first touches the record
(`lastAccessed` becomes the request time) and then reports
`idleTime = now - now = 0`, necessarily below the eviction threshold. -/
theorem info_resets_idle_clock (now : Nat) (sid : String) (r : Registry)
    (s0 : SessionData) (hm : mapGet r sid = some s0) :
    ∃ resp, (infoHandler now sid r).2 = .ok resp ∧
      resp.idleTime = 0 ∧ resp.lastAccessed = now ∧
      resp.idleTime < CONFIG_SESSION_TIMEOUT_MS ∧
      (mapGet (infoHandler now sid r).1 sid).map
        (fun s => s.lastAccessed) = some now := by
  rw [infoHandler_eq_some now sid r s0 hm]
  refine ⟨_, rfl, Nat.sub_self now, rfl, ?_, ?_⟩
  · show now - now < CONFIG_SESSION_TIMEOUT_MS
    rw [Nat.sub_self]
    norm_num [CONFIG_SESSION_TIMEOUT_MS]
  · have h3 : mapGet (mapSet r { s0 with lastAccessed := now }) sid =
        some { s0 with lastAccessed := now } := by
      have h4 := mapGet_mapSet_self r { s0 with lastAccessed := now }
      simpa [mapGet_id_eq r sid s0 hm] using h4
    rw [h3]
    rfl

/-- C10 (witness): the info route on a session last touched at 0,
queried at time 12345, reports idle time 0. -/
theorem info_resets_idle_clock_witness :
    ∃ resp, (infoHandler 12345 "a" [sesPair]).2 = .ok resp ∧
      resp.idleTime = 0 := by
  obtain ⟨resp, h1, h2, _⟩ := info_resets_idle_clock 12345 "a" [sesPair]
    sesPair (by decide)
  exact ⟨resp, h1, h2⟩
